import Mathlib

/-!
Verification development for the digital-marketing-agent repository.

The two Python source files (`nova_canvas_integration.py` and
`marketing_app.py`) are shallowly embedded below.  Remote services
(the Bedrock agent runtime, the Nova Canvas image model, the local
filesystem and S3) are modelled by explicit environments: each remote
call site receives the outcome of that call (a normal response or a
raised exception message) as data, and each function returns, next to
its Python return value, the list of filesystem writes and S3 puts it
performed (effect deltas, in execution order).
-/

/-! ## Embedding of `nova_canvas_integration.py` -/

/-- The request body built by `generate_marketing_image`
(`taskType "TEXT_IMAGE"`, `textToImageParams.text`,
`imageGenerationConfig` with `numberOfImages`, `quality`, `width`,
`height`). -/
structure NovaRequest where
  taskType : String
  text : String
  numberOfImages : Nat
  quality : String
  width : Nat
  height : Nat
deriving DecidableEq

/-- The parsed JSON response body of the Nova Canvas model.  `images`
is `none` when the `images` key is absent, `some l` when present with
payload list `l` (base64 strings). -/
structure NovaResponse where
  images : Option (List String)
deriving DecidableEq

/-- The `NovaCanvasGenerator` object state: the optional S3 bucket
given to `__init__`.  (`self.s3_client` is derived: it is created iff
the bucket argument is truthy, see `hasS3Client`.) -/
structure NovaCanvasGenerator where
  s3_bucket : Option String
deriving DecidableEq

/-- Python truthiness of an optional string (`None` and `""` are
falsy). -/
def truthy : Option String → Bool
  | none => false
  | some s => s != ""

/-- `self.s3_client = boto3.client('s3') if s3_bucket else None`:
the client exists iff the constructor bucket was truthy. -/
def hasS3Client (g : NovaCanvasGenerator) : Bool :=
  truthy g.s3_bucket

/-- One S3 `put_object` call (`Bucket`, `Key`, `Body`, `ContentType`). -/
structure S3Put where
  bucket : String
  key : String
  body : List Nat
  contentType : String
deriving DecidableEq

/-- Environment for one `generate_marketing_image` call: the behaviour
of the remote model on the request it is sent, the base64 decoder, the
timestamp and uuid fragment used for the filename, `os.path.abspath`,
and the outcomes of the local file write and the S3 put (each either
`ok` or a raised exception message). -/
structure ImageGenEnv where
  invokeModel : NovaRequest → Except String NovaResponse
  decode : String → List Nat
  timestamp : String
  uuidHex8 : String
  absPath : String → String
  writeOutcome : Except String Unit
  s3PutOutcome : Except String Unit

/-- The dict returned by `generate_marketing_image`.  Fields that a
branch does not set are `none` (the Python failure dict has only
`success` and `error`). -/
structure ImageGenResult where
  success : Bool
  filename : Option String := none
  size_bytes : Option Nat := none
  dimensions : Option String := none
  prompt : Option String := none
  local_path : Option String := none
  s3_url : Option String := none
  error : Option String := none
deriving DecidableEq

/-- `{'success': False, 'error': e}`. -/
def failResult (e : String) : ImageGenResult :=
  { success := false, error := some e }

/-- The S3 branch of `generate_marketing_image` (`if save_to_s3 and
self.s3_client and self.s3_bucket:`), given the results dict and the
filesystem delta accumulated so far. -/
def gmiS3Step (g : NovaCanvasGenerator) (env : ImageGenEnv)
    (image_bytes : List Nat) (filename : String)
    (results : ImageGenResult) (fsDelta : List (String × List Nat))
    (save_to_s3 : Bool) :
    ImageGenResult × List (String × List Nat) × List S3Put :=
  match g.s3_bucket with
  | none => (results, fsDelta, [])
  | some bucket =>
    if save_to_s3 && hasS3Client g && (bucket != "") then
      match env.s3PutOutcome with
      | .error e => (failResult e, fsDelta, [])
      | .ok _ =>
        let s3_key := "nova-canvas/" ++ filename
        ({ results with s3_url := some ("s3://" ++ bucket ++ "/" ++ s3_key) },
          fsDelta, [⟨bucket, s3_key, image_bytes, "image/png"⟩])
    else (results, fsDelta, [])

/-- `NovaCanvasGenerator.generate_marketing_image(prompt, width,
height, quality, save_to_s3, save_locally)`.  Returns the Python
return value together with the file writes and S3 puts performed.
The whole body runs inside `try/except Exception`: any raised error is
converted to `{'success': False, 'error': str(e)}`, with effects
performed before the raise kept. -/
def generate_marketing_image (g : NovaCanvasGenerator) (env : ImageGenEnv)
    (prompt : String) (width height : Nat) (quality : String)
    (save_to_s3 save_locally : Bool) :
    ImageGenResult × List (String × List Nat) × List S3Put :=
  match env.invokeModel
      { taskType := "TEXT_IMAGE", text := prompt, numberOfImages := 1,
        quality := quality, width := width, height := height } with
  | .error e => (failResult e, [], [])
  | .ok response_body =>
    match response_body.images with
    | none => (failResult "No image generated", [], [])
    | some [] => (failResult "No image generated", [], [])
    | some (image_data :: _) =>
      let image_bytes := env.decode image_data
      let filename :=
        "marketing_visual_" ++ env.timestamp ++ "_" ++ env.uuidHex8 ++ ".png"
      let results : ImageGenResult :=
        { success := true, filename := some filename,
          size_bytes := some image_bytes.length,
          dimensions := some (toString width ++ "x" ++ toString height),
          prompt := some prompt, local_path := none, s3_url := none,
          error := none }
      if save_locally then
        match env.writeOutcome with
        | .error e => (failResult e, [], [])
        | .ok _ =>
          gmiS3Step g env image_bytes filename
            { results with local_path := some (env.absPath filename) }
            [(filename, image_bytes)] save_to_s3
      else
        gmiS3Step g env image_bytes filename results [] save_to_s3

/-- The `formats` dict of `generate_social_media_post`. -/
def socialFormats (format_type : String) : Option (Nat × Nat) :=
  if format_type = "square" then some (1024, 1024)
  else if format_type = "story" then some (1080, 1920)
  else if format_type = "banner" then some (1200, 630)
  else if format_type = "wide" then some (1024, 512)
  else none

/-- `NovaCanvasGenerator.generate_social_media_post(prompt,
format_type)`.  Unknown format names are a reported failure; `banner`
and `wide` are replaced by the supported square 1024x1024; the call to
`generate_marketing_image` uses the Python defaults `quality =
"standard"`, `save_to_s3 = True`, `save_locally = True`. -/
def generate_social_media_post (g : NovaCanvasGenerator) (env : ImageGenEnv)
    (prompt format_type : String) :
    ImageGenResult × List (String × List Nat) × List S3Put :=
  match socialFormats format_type with
  | none => (failResult ("Unsupported format: " ++ format_type), [], [])
  | some wh =>
    let wh2 :=
      if format_type = "banner" || format_type = "wide" then
        ((1024 : Nat), (1024 : Nat))
      else wh
    let enhanced_prompt := "Social media " ++ format_type ++ " format: " ++ prompt
    generate_marketing_image g env enhanced_prompt wh2.1 wh2.2 "standard"
      true true

/-- The `campaign_info` dict given to
`generate_marketing_campaign_visuals`; each field is `none` when the
key is absent (`dict.get` defaults apply). -/
structure CampaignInfo where
  brand : Option String
  product : Option String
  style : Option String
  colors : Option String
deriving DecidableEq

/-- The aggregate returned by `generate_marketing_campaign_visuals`.
The `visuals` dict is modelled as an association list in insertion
order (the three format names are distinct). -/
structure CampaignVisualsResult where
  campaign : CampaignInfo
  visuals : List (String × ImageGenResult)
  success : Bool
  errors : List String
deriving DecidableEq

/-- `base_prompt` of `generate_marketing_campaign_visuals`. -/
def campaignBasePrompt (info : CampaignInfo) : String :=
  "Marketing visual for " ++ info.brand.getD "Brand" ++ " " ++
    info.product.getD "Product" ++ ", " ++
    info.style.getD "modern and professional" ++ " style, " ++
    info.colors.getD "blue and white" ++ " color scheme"

/-- The `formats` dict of `generate_marketing_campaign_visuals`, in
insertion order. -/
def campaignFormats (base_prompt : String) : List (String × String) :=
  [("social_post", base_prompt ++ ", social media post format"),
   ("story", base_prompt ++ ", Instagram story format"),
   ("banner", base_prompt ++ ", marketing banner format")]

/-- The `for format_name, prompt in formats.items():` loop of
`generate_marketing_campaign_visuals`, one `ImageGenEnv` per
iteration, accumulating the results dict and the effect deltas. -/
def campaignVisualsLoop (g : NovaCanvasGenerator)
    (items : List ((String × String) × ImageGenEnv))
    (acc : CampaignVisualsResult)
    (fs : List (String × List Nat)) (s3 : List S3Put) :
    CampaignVisualsResult × List (String × List Nat) × List S3Put :=
  match items with
  | [] => (acc, fs, s3)
  | (np, env) :: rest =>
    let out := generate_social_media_post g env np.2 "square"
    let result := out.1
    if result.success then
      campaignVisualsLoop g rest
        { acc with visuals := acc.visuals ++ [(np.1, result)] }
        (fs ++ out.2.1) (s3 ++ out.2.2)
    else
      campaignVisualsLoop g rest
        { acc with
          errors := acc.errors ++ [np.1 ++ ": " ++ result.error.getD ""],
          success := false }
        (fs ++ out.2.1) (s3 ++ out.2.2)

/-- `NovaCanvasGenerator.generate_marketing_campaign_visuals
(campaign_info)`, with one call environment per generated format. -/
def generate_marketing_campaign_visuals (g : NovaCanvasGenerator)
    (info : CampaignInfo) (e1 e2 e3 : ImageGenEnv) :
    CampaignVisualsResult × List (String × List Nat) × List S3Put :=
  campaignVisualsLoop g
    ((campaignFormats (campaignBasePrompt info)).zip [e1, e2, e3])
    { campaign := info, visuals := [], success := true, errors := [] } [] []

/-! ## Embedding of `marketing_app.py` -/

/-- `SUPERVISOR_AGENT_ID` configured at module top. -/
def SUPERVISOR_AGENT_ID : String := "E4NLVBHEHI"

/-- `CONTENT_AGENT_ID` configured at module top. -/
def CONTENT_AGENT_ID : String := "BSESL8XMSK"

/-- `VISUAL_AGENT_ID` configured at module top. -/
def VISUAL_AGENT_ID : String := "EMHWFO0REL"

/-- The dict returned by `invoke_agent`: on success `response` is
populated, on failure `error`; `session_id` is always present. -/
structure AgentResult where
  success : Bool
  response : Option String := none
  error : Option String := none
  session_id : String
deriving DecidableEq

/-- Environment for one `invoke_agent` call: the uuid fragment used
when generating a fresh session id, and the behaviour of the Bedrock
agent runtime as a function of agent id, session id and input text:
either a raised exception message or the stream of completion events.
An event is `some (some s)` when it has a `chunk` with `bytes`
decoding to `s`, `some none` when its chunk lacks `bytes`, `none` when
the event lacks a `chunk` key. -/
structure AgentEnv where
  uuidHex8 : String
  transport : String → String → String →
    Except String (List (Option (Option String)))

/-- Concatenation of the streamed chunk bytes in arrival order
(the `for event in response['completion']` loop). -/
def concatChunks (events : List (Option (Option String))) : String :=
  events.foldl
    (fun acc e =>
      match e with
      | some (some s) => acc ++ s
      | _ => acc) ""

/-- `if not session_id: session_id = f"session_{uuid.uuid4().hex[:8]}"`
(Python `not` treats both `None` and the empty string as falsy). -/
def effectiveSessionId (env : AgentEnv) (session_id : Option String) : String :=
  match session_id with
  | none => "session_" ++ env.uuidHex8
  | some s => if s = "" then "session_" ++ env.uuidHex8 else s

/-- `MarketingAppV2.invoke_agent(agent_id, message, session_id)`:
total — every transport or service exception is caught and converted
to a failure dict carrying the session id. -/
def invoke_agent (env : AgentEnv) (agent_id message : String)
    (session_id : Option String) : AgentResult :=
  let sid := effectiveSessionId env session_id
  match env.transport agent_id sid message with
  | .error e => { success := false, error := some e, session_id := sid }
  | .ok events =>
    { success := true, response := some (concatChunks events),
      session_id := sid }

/-- The campaign brief dict; each field is `none` when the key is
absent (`dict.get` defaults apply at the use sites). -/
structure CampaignBrief where
  brand : Option String
  product : Option String
  audience : Option String
  goals : Option String
  budget : Option String
  timeline : Option String
deriving DecidableEq

/-- The strategy prompt f-string of `generate_marketing_strategy`
(each brief field defaulted to `"N/A"`). -/
def strategyPromptText (b : CampaignBrief) : String :=
  "\n        Create a comprehensive marketing strategy for the following campaign:\n        \n        Brand: "
    ++ b.brand.getD "N/A"
    ++ "\n        Product/Service: " ++ b.product.getD "N/A"
    ++ "\n        Target Audience: " ++ b.audience.getD "N/A"
    ++ "\n        Campaign Goals: " ++ b.goals.getD "N/A"
    ++ "\n        Budget Range: " ++ b.budget.getD "N/A"
    ++ "\n        Timeline: " ++ b.timeline.getD "N/A"
    ++ "\n        \n        Please provide:\n        1. Overall marketing strategy\n        2. Content recommendations\n        3. Visual content suggestions\n        4. Channel recommendations\n        5. Success metrics\n        "

/-- `MarketingAppV2.generate_marketing_strategy(campaign_brief)`. -/
def generate_marketing_strategy (env : AgentEnv) (campaign_brief : CampaignBrief) :
    AgentResult :=
  invoke_agent env SUPERVISOR_AGENT_ID (strategyPromptText campaign_brief) none

/-- The content prompt f-string of `generate_content`. -/
def contentPromptText (content_brief : String) : String :=
  "\n        Generate marketing content for the following brief:\n        "
    ++ content_brief
    ++ "\n        \n        Please provide:\n        1. Social media posts (Facebook, Instagram, Twitter)\n        2. Email marketing content\n        3. Blog post outline\n        4. Call-to-action suggestions\n        "

/-- `MarketingAppV2.generate_content(content_brief)`. -/
def generate_content (env : AgentEnv) (content_brief : String) : AgentResult :=
  invoke_agent env CONTENT_AGENT_ID (contentPromptText content_brief) none

/-- The visual prompt f-string of `generate_visual_concepts`. -/
def visualPromptText (visual_brief : String) : String :=
  "\n        Create visual content concepts for:\n        "
    ++ visual_brief
    ++ "\n        \n        Please provide:\n        1. Visual style recommendations\n        2. Color palette suggestions\n        3. Layout concepts\n        4. Image composition ideas\n        5. Specific prompts for image generation\n        "

/-- `MarketingAppV2.generate_visual_concepts(visual_brief)`. -/
def generate_visual_concepts (env : AgentEnv) (visual_brief : String) :
    AgentResult :=
  invoke_agent env VISUAL_AGENT_ID (visualPromptText visual_brief) none

/-- `self.nova_generator = NovaCanvasGenerator()`: the app's generator
has no S3 bucket. -/
def appNovaGenerator : NovaCanvasGenerator :=
  { s3_bucket := none }

/-- One entry of the list returned by `generate_campaign_visuals`.
`size_mb` is `result['size_bytes'] / (1024 * 1024)`; the Python float
quotient of a byte count by the power of two 2^20 is exact, so it is
modelled by the exact rational. -/
structure VisualEntry where
  prompt : String
  filename : Option String
  local_path : Option String
  size_mb : Rat
deriving DecidableEq

/-- Output of the visual-generation stage: the returned list, the
results appended to `st.session_state.generated_visuals`, and the
effect deltas. -/
structure VisualsStageOut where
  results : List VisualEntry
  sessionAppends : List ImageGenResult
  files : List (String × List Nat)
  s3 : List S3Put
deriving DecidableEq

/-- `MarketingAppV2.generate_campaign_visuals(visual_prompts)`: one
`generate_marketing_image` call per prompt with `width=1024`,
`height=1024`, `save_locally=True`, `save_to_s3=False` (quality
defaults to `"standard"`); only successful results are appended to the
returned list and to the session state. -/
def generate_campaign_visuals (envs : Nat → ImageGenEnv)
    (visual_prompts : List String) : VisualsStageOut :=
  match visual_prompts with
  | [] => { results := [], sessionAppends := [], files := [], s3 := [] }
  | prompt :: rest =>
    let out := generate_marketing_image appNovaGenerator (envs 0) prompt
      1024 1024 "standard" false true
    let result := out.1
    let tail := generate_campaign_visuals (fun i => envs (i + 1)) rest
    if result.success then
      { results :=
          { prompt := prompt, filename := result.filename,
            local_path := result.local_path,
            size_mb := (result.size_bytes.getD 0 : Rat) / (1024 * 1024) }
            :: tail.results,
        sessionAppends := result :: tail.sessionAppends,
        files := out.2.1 ++ tail.files, s3 := out.2.2 ++ tail.s3 }
    else
      { results := tail.results, sessionAppends := tail.sessionAppends,
        files := out.2.1 ++ tail.files, s3 := out.2.2 ++ tail.s3 }

/-- The `campaign_results` dict assembled by
`create_complete_campaign`. -/
structure CampaignResult where
  brief : CampaignBrief
  strategy : Option AgentResult
  content : Option AgentResult
  visual_concepts : Option AgentResult
  generated_visuals : List VisualEntry
  timestamp : String
deriving DecidableEq

/-- Environment for one `create_complete_campaign` call: one agent
environment per agent invocation, the assembly timestamp, and one
image environment per image generated in stage 4. -/
structure CampaignEnv where
  strategyEnv : AgentEnv
  contentEnv : AgentEnv
  visualEnv : AgentEnv
  timestamp : String
  imageEnv : Nat → ImageGenEnv

/-- Output of `create_complete_campaign`: the returned dict, the
entries appended to `st.session_state.campaign_history` and to
`st.session_state.generated_visuals`, and the effect deltas. -/
structure CampaignOut where
  result : CampaignResult
  historyAppends : List CampaignResult
  visualSessionAppends : List ImageGenResult
  files : List (String × List Nat)
  s3 : List S3Put

/-- The three fixed `sample_prompts` of step 4 (bare `dict.get`
renders an absent key as Python `None`, i.e. the text `"None"`). -/
def samplePrompts (b : CampaignBrief) : List String :=
  ["Professional marketing banner for " ++ b.brand.getD "None" ++ " " ++
     b.product.getD "None" ++ ", modern design, high quality",
   "Social media post visual for " ++ b.brand.getD "None" ++
     ", engaging and vibrant, call-to-action style",
   "Product showcase image for " ++ b.product.getD "None" ++
     ", clean background, professional lighting"]

/-- The `content_brief` f-string of step 2: the strategy response
truncated to its first 500 characters. -/
def contentBriefText (strategy_response : String) (b : CampaignBrief) : String :=
  "Based on this strategy: " ++ String.mk (strategy_response.data.take 500)
    ++ "... Create content for " ++ b.brand.getD "None" ++ " " ++
    b.product.getD "None"

/-- The `visual_brief` f-string of step 3. -/
def visualBriefText (b : CampaignBrief) : String :=
  "Create visual concepts for " ++ b.brand.getD "None" ++ " " ++
    b.product.getD "None" ++ " targeting " ++ b.audience.getD "None"

/-- `MarketingAppV2.create_complete_campaign(campaign_brief)`.  When
the strategy stage fails the function returns early: `content` and
`visual_concepts` stay `None`, no visuals are generated, and the
result is NOT appended to the campaign history.  Otherwise content and
visual concepts are always attempted, stage 4 runs only when the
visual-concepts stage succeeded, and the result is appended to the
history exactly once. -/
def create_complete_campaign (env : CampaignEnv)
    (campaign_brief : CampaignBrief) : CampaignOut :=
  let strategy_result := generate_marketing_strategy env.strategyEnv campaign_brief
  if !strategy_result.success then
    { result :=
        { brief := campaign_brief, strategy := some strategy_result,
          content := none, visual_concepts := none, generated_visuals := [],
          timestamp := env.timestamp },
      historyAppends := [], visualSessionAppends := [], files := [], s3 := [] }
  else
    let content_brief :=
      contentBriefText (strategy_result.response.getD "") campaign_brief
    let content_result := generate_content env.contentEnv content_brief
    let visual_concepts_result :=
      generate_visual_concepts env.visualEnv (visualBriefText campaign_brief)
    if visual_concepts_result.success then
      let stage4 := generate_campaign_visuals env.imageEnv
        (samplePrompts campaign_brief)
      let result : CampaignResult :=
        { brief := campaign_brief, strategy := some strategy_result,
          content := some content_result,
          visual_concepts := some visual_concepts_result,
          generated_visuals := stage4.results, timestamp := env.timestamp }
      { result := result, historyAppends := [result],
        visualSessionAppends := stage4.sessionAppends,
        files := stage4.files, s3 := stage4.s3 }
    else
      let result : CampaignResult :=
        { brief := campaign_brief, strategy := some strategy_result,
          content := some content_result,
          visual_concepts := some visual_concepts_result,
          generated_visuals := [], timestamp := env.timestamp }
      { result := result, historyAppends := [result],
        visualSessionAppends := [], files := [], s3 := [] }

/-! ## Concrete environments used by witnesses and counterexamples -/

/-- An image environment in which every step succeeds. -/
def okImageEnv : ImageGenEnv :=
  { invokeModel := fun _ => .ok { images := some ["QUJD"] },
    decode := fun _ => [65, 66, 67],
    timestamp := "20260101_000000", uuidHex8 := "abcd1234",
    absPath := fun s => "/app/" ++ s,
    writeOutcome := .ok (), s3PutOutcome := .ok () }

/-- An image environment whose backend responds with an empty image
array. -/
def emptyImagesEnv : ImageGenEnv :=
  { invokeModel := fun _ => .ok { images := some [] },
    decode := fun _ => [],
    timestamp := "20260101_000000", uuidHex8 := "abcd1234",
    absPath := fun s => "/app/" ++ s,
    writeOutcome := .ok (), s3PutOutcome := .ok () }

/-- An image environment in which the S3 upload raises after the
local write succeeded. -/
def s3FailImageEnv : ImageGenEnv :=
  { invokeModel := fun _ => .ok { images := some ["QUJD"] },
    decode := fun _ => [65, 66, 67],
    timestamp := "20260101_000000", uuidHex8 := "abcd1234",
    absPath := fun s => "/app/" ++ s,
    writeOutcome := .ok (), s3PutOutcome := .error "AccessDenied" }

/-- A generator configured with an S3 bucket. -/
def bucketGenerator : NovaCanvasGenerator :=
  { s3_bucket := some "marketing-bucket" }

/-! ## Claim theorems -/

/-- **C4.** For every generator, prompt, dimensions, quality and save
flags, if the backend's response to the request built from that prompt
contains no image payloads (`images` key absent or empty array),
`generate_marketing_image` returns `{success: false, error: "No image
generated"}`, writes no file and uploads nothing. -/
theorem claim_C4_empty_images (g : NovaCanvasGenerator) (env : ImageGenEnv)
    (prompt : String) (width height : Nat) (quality : String)
    (save_to_s3 save_locally : Bool) (resp : NovaResponse)
    (hcall : env.invokeModel
      { taskType := "TEXT_IMAGE", text := prompt, numberOfImages := 1,
        quality := quality, width := width, height := height } = .ok resp)
    (himg : resp.images = none ∨ resp.images = some []) :
    (generate_marketing_image g env prompt width height quality
        save_to_s3 save_locally).1.success = false ∧
    (generate_marketing_image g env prompt width height quality
        save_to_s3 save_locally).1.error = some "No image generated" ∧
    (generate_marketing_image g env prompt width height quality
        save_to_s3 save_locally).2.1 = [] ∧
    (generate_marketing_image g env prompt width height quality
        save_to_s3 save_locally).2.2 = [] := by
  rcases himg with h | h <;>
    simp [generate_marketing_image, hcall, h, failResult]

/-- Witness for C4 at a concrete environment whose backend returns an
empty image array. -/
theorem claim_C4_witness :
    (emptyImagesEnv.invokeModel
      { taskType := "TEXT_IMAGE", text := "p", numberOfImages := 1,
        quality := "standard", width := 512, height := 512 } =
      .ok { images := some [] }) ∧
    ((generate_marketing_image appNovaGenerator emptyImagesEnv "p" 512 512
        "standard" true true).1.success = false ∧
      (generate_marketing_image appNovaGenerator emptyImagesEnv "p" 512 512
        "standard" true true).1.error = some "No image generated" ∧
      (generate_marketing_image appNovaGenerator emptyImagesEnv "p" 512 512
        "standard" true true).2.1 = [] ∧
      (generate_marketing_image appNovaGenerator emptyImagesEnv "p" 512 512
        "standard" true true).2.2 = []) :=
  ⟨rfl, claim_C4_empty_images appNovaGenerator emptyImagesEnv "p" 512 512
    "standard" true true { images := some [] } rfl (Or.inr rfl)⟩

/-- **C9.** `generate_marketing_image` is not atomic on failure: when
the backend returns an image, the local write succeeds and the S3
upload then raises, the function returns `{success: false, error: e}`
while the locally written file remains recorded as written. -/
theorem claim_C9_not_atomic (g : NovaCanvasGenerator) (env : ImageGenEnv)
    (prompt : String) (width height : Nat) (quality : String)
    (bucket : String) (resp : NovaResponse) (image_data : String)
    (rest : List String) (e : String)
    (hbucket : g.s3_bucket = some bucket) (hbne : bucket ≠ "")
    (hcall : env.invokeModel
      { taskType := "TEXT_IMAGE", text := prompt, numberOfImages := 1,
        quality := quality, width := width, height := height } = .ok resp)
    (himg : resp.images = some (image_data :: rest))
    (hwrite : env.writeOutcome = .ok ())
    (hs3 : env.s3PutOutcome = .error e) :
    (generate_marketing_image g env prompt width height quality
        true true).1.success = false ∧
    (generate_marketing_image g env prompt width height quality
        true true).1.error = some e ∧
    (generate_marketing_image g env prompt width height quality
        true true).2.1 =
      [("marketing_visual_" ++ env.timestamp ++ "_" ++ env.uuidHex8 ++ ".png",
        env.decode image_data)] ∧
    (generate_marketing_image g env prompt width height quality
        true true).2.2 = [] := by
  simp [generate_marketing_image, hcall, himg, hwrite, gmiS3Step, hbucket,
    hasS3Client, truthy, hbne, hs3, failResult]

/-- Witness for C9 at a concrete configured bucket and failing S3
upload: the call reports failure yet the file write already happened. -/
theorem claim_C9_witness :
    (bucketGenerator.s3_bucket = some "marketing-bucket") ∧
    ("marketing-bucket" ≠ "") ∧
    ((generate_marketing_image bucketGenerator s3FailImageEnv "p" 1024 1024
        "standard" true true).1.success = false ∧
      (generate_marketing_image bucketGenerator s3FailImageEnv "p" 1024 1024
        "standard" true true).1.error = some "AccessDenied" ∧
      (generate_marketing_image bucketGenerator s3FailImageEnv "p" 1024 1024
        "standard" true true).2.1 =
        [("marketing_visual_20260101_000000_abcd1234.png", [65, 66, 67])] ∧
      (generate_marketing_image bucketGenerator s3FailImageEnv "p" 1024 1024
        "standard" true true).2.2 = []) :=
  ⟨rfl, by decide,
    claim_C9_not_atomic bucketGenerator s3FailImageEnv "p" 1024 1024
      "standard" "marketing-bucket" { images := some ["QUJD"] } "QUJD" [] "AccessDenied"
      rfl (by decide) rfl rfl rfl rfl⟩

/-- **C6.** For the two format names whose aspect ratio the backend
does not support (`banner` and `wide`), `generate_social_media_post`
never takes the unsupported-format error branch: it substitutes the
square dimensions 1024x1024 and behaves exactly as
`generate_marketing_image` on the enhanced prompt at 1024x1024 — the
same dimensions as the `square` format. -/
theorem claim_C6_unsupported_aspect (g : NovaCanvasGenerator)
    (env : ImageGenEnv) (prompt format_type : String)
    (h : format_type = "banner" ∨ format_type = "wide") :
    generate_social_media_post g env prompt format_type =
      generate_marketing_image g env
        ("Social media " ++ format_type ++ " format: " ++ prompt)
        1024 1024 "standard" true true := by
  rcases h with h | h <;> subst h <;> rfl

/-- Witness for C6 at the concrete format name `banner`. -/
theorem claim_C6_witness :
    ("banner" = "banner" ∨ "banner" = "wide") ∧
    generate_social_media_post appNovaGenerator okImageEnv "p" "banner" =
      generate_marketing_image appNovaGenerator okImageEnv
        ("Social media " ++ "banner" ++ " format: " ++ "p")
        1024 1024 "standard" true true :=
  ⟨Or.inl rfl,
    claim_C6_unsupported_aspect appNovaGenerator okImageEnv "p" "banner"
      (Or.inl rfl)⟩

/-- **C7.** `invoke_agent` is total: any transport or service error is
caught and converted to `{success: false, error: <message>,
session_id}`, the session id is always included in the result, and a
fresh identifier `session_<uuid-hex-8>` is generated when none (or an
empty one) was supplied. -/
theorem claim_C7_invoke_agent (env : AgentEnv) (agent_id message : String)
    (session_id : Option String) :
    ((invoke_agent env agent_id message session_id).session_id =
      effectiveSessionId env session_id) ∧
    (∀ e, env.transport agent_id (effectiveSessionId env session_id) message =
        .error e →
      invoke_agent env agent_id message session_id =
        { success := false, response := none, error := some e,
          session_id := effectiveSessionId env session_id }) ∧
    (session_id = none →
      (invoke_agent env agent_id message session_id).session_id =
        "session_" ++ env.uuidHex8) := by
  refine ⟨?_, ?_, ?_⟩
  · cases h : env.transport agent_id (effectiveSessionId env session_id)
        message <;> simp [invoke_agent, h]
  · intro e he
    simp [invoke_agent, he]
  · intro hnone
    subst hnone
    simp only [invoke_agent, effectiveSessionId]
    split <;> rfl

/-- A concrete agent environment whose transport always raises. -/
def throttledAgentEnv : AgentEnv :=
  { uuidHex8 := "aaaa0000", transport := fun _ _ _ => .error "ThrottlingException" }

/-- Witness for C7: a concrete call with no session id and a raising
transport returns the failure dict with a generated session id. -/
theorem claim_C7_witness :
    (throttledAgentEnv.transport SUPERVISOR_AGENT_ID
        (effectiveSessionId throttledAgentEnv none) "hello" =
      .error "ThrottlingException") ∧
    ((none : Option String) = none) ∧
    (invoke_agent throttledAgentEnv SUPERVISOR_AGENT_ID "hello" none =
      { success := false, response := none, error := some "ThrottlingException",
        session_id := effectiveSessionId throttledAgentEnv none }) ∧
    ((invoke_agent throttledAgentEnv SUPERVISOR_AGENT_ID "hello" none).session_id =
      "session_" ++ throttledAgentEnv.uuidHex8) :=
  ⟨rfl, rfl,
    (claim_C7_invoke_agent throttledAgentEnv SUPERVISOR_AGENT_ID "hello" none).2.1
      "ThrottlingException" rfl,
    (claim_C7_invoke_agent throttledAgentEnv SUPERVISOR_AGENT_ID "hello" none).2.2
      rfl⟩

/-- **C8.** In step 2 of `create_complete_campaign`, when the strategy
stage succeeded, the content stage is invoked on a brief that embeds
exactly the first 500 characters of the strategy response (the full
text when it is shorter than 500 characters) together with the brief's
brand and product fields. -/
theorem claim_C8_content_truncation (env : CampaignEnv)
    (brief : CampaignBrief)
    (hs : (generate_marketing_strategy env.strategyEnv brief).success = true) :
    ((create_complete_campaign env brief).result.content =
      some (generate_content env.contentEnv
        (contentBriefText
          ((generate_marketing_strategy env.strategyEnv brief).response.getD "")
          brief))) ∧
    (∀ s : String, contentBriefText s brief =
      "Based on this strategy: " ++ String.mk (s.data.take 500)
        ++ "... Create content for " ++ brief.brand.getD "None" ++ " " ++
        brief.product.getD "None") ∧
    (∀ s : String, (String.mk (s.data.take 500)).data.length =
      min 500 s.data.length) ∧
    (∀ s : String, s.data.length ≤ 500 → String.mk (s.data.take 500) = s) := by
  refine ⟨?_, fun s => rfl, fun s => by simp [List.length_take], ?_⟩
  · simp only [create_complete_campaign, hs, Bool.not_true, Bool.false_eq_true,
      if_false]
    split <;> rfl
  · intro s hlen
    cases s with
    | mk data => simp [List.take_of_length_le hlen]

/-- A concrete agent environment answering with a fixed short
response. -/
def okAgentEnv (uuid response : String) : AgentEnv :=
  { uuidHex8 := uuid, transport := fun _ _ _ => .ok [some (some response)] }

/-- A campaign environment in which all three agents answer and image
generation succeeds. -/
def allOkCampaignEnv : CampaignEnv :=
  { strategyEnv := okAgentEnv "aaaa0000" "STRATEGY",
    contentEnv := okAgentEnv "bbbb1111" "CONTENT",
    visualEnv := okAgentEnv "cccc2222" "VISUAL",
    timestamp := "2026-10-12T00:00:00",
    imageEnv := fun _ => okImageEnv }

/-- The scenario brief of the spec: brand `Acme`, product `Widget`,
remaining fields empty. -/
def acmeBrief : CampaignBrief :=
  { brand := some "Acme", product := some "Widget", audience := some "",
    goals := some "", budget := some "", timeline := some "" }

/-- Witness for C8 at the all-success environment: the content stage
receives the truncated strategy response. -/
theorem claim_C8_witness :
    ((generate_marketing_strategy allOkCampaignEnv.strategyEnv acmeBrief).success
      = true) ∧
    (((create_complete_campaign allOkCampaignEnv acmeBrief).result.content =
      some (generate_content allOkCampaignEnv.contentEnv
        (contentBriefText
          ((generate_marketing_strategy allOkCampaignEnv.strategyEnv
              acmeBrief).response.getD "")
          acmeBrief))) ∧
    (∀ s : String, contentBriefText s acmeBrief =
      "Based on this strategy: " ++ String.mk (s.data.take 500)
        ++ "... Create content for " ++ acmeBrief.brand.getD "None" ++ " " ++
        acmeBrief.product.getD "None") ∧
    (∀ s : String, (String.mk (s.data.take 500)).data.length =
      min 500 s.data.length) ∧
    (∀ s : String, s.data.length ≤ 500 → String.mk (s.data.take 500) = s)) :=
  ⟨rfl, claim_C8_content_truncation allOkCampaignEnv acmeBrief rfl⟩

/-- A campaign environment in which the strategy agent raises and
everything downstream would succeed. -/
def strategyFailCampaignEnv : CampaignEnv :=
  { strategyEnv := throttledAgentEnv,
    contentEnv := okAgentEnv "bbbb1111" "CONTENT",
    visualEnv := okAgentEnv "cccc2222" "VISUAL",
    timestamp := "2026-10-12T00:00:00",
    imageEnv := fun _ => okImageEnv }

/-- **C1, counterexample.** On the spec's own scenario brief (brand
`Acme`, product `Widget`, both non-empty) with a strategy failure and
content/visual-concepts/image successes available, the code returns
early: the `content` field is `None` (not a populated result with
`success=true`) and no visuals are generated. -/
theorem claim_C1_counterexample :
    truthy acmeBrief.brand = true ∧
    truthy acmeBrief.product = true ∧
    (create_complete_campaign strategyFailCampaignEnv acmeBrief).result.strategy
      = some { success := false, response := none,
               error := some "ThrottlingException",
               session_id := "session_aaaa0000" } ∧
    (create_complete_campaign strategyFailCampaignEnv acmeBrief).result.content
      = none ∧
    (create_complete_campaign strategyFailCampaignEnv
        acmeBrief).result.visual_concepts = none ∧
    (create_complete_campaign strategyFailCampaignEnv
        acmeBrief).result.generated_visuals.length = 0 := by
  refine ⟨rfl, rfl, ?_, rfl, rfl, rfl⟩
  rfl

/-- **C1, amended.** The content stage is attempted if and only if the
strategy stage succeeded: `create_complete_campaign` returns early on
a strategy failure, leaving `content` and `visual_concepts` absent and
`generated_visuals` empty. -/
theorem claim_C1_amended (env : CampaignEnv) (brief : CampaignBrief) :
    ((create_complete_campaign env brief).result.content.isSome =
      (generate_marketing_strategy env.strategyEnv brief).success) ∧
    ((create_complete_campaign env brief).result.visual_concepts.isSome =
      (generate_marketing_strategy env.strategyEnv brief).success) ∧
    ((generate_marketing_strategy env.strategyEnv brief).success = false →
      (create_complete_campaign env brief).result.content = none ∧
      (create_complete_campaign env brief).result.visual_concepts = none ∧
      (create_complete_campaign env brief).result.generated_visuals = []) := by
  cases h : (generate_marketing_strategy env.strategyEnv brief).success with
  | false => simp [create_complete_campaign, h]
  | true =>
    refine ⟨?_, ?_, fun hc => by simp [h] at hc⟩ <;>
      · simp only [create_complete_campaign, h, Bool.not_true,
          Bool.false_eq_true, if_false]
        split <;> rfl

/-- Witness for C1 (amended) at a concrete strategy-failing
environment. -/
theorem claim_C1_witness :
    ((generate_marketing_strategy strategyFailCampaignEnv.strategyEnv
        acmeBrief).success = false) ∧
    ((create_complete_campaign strategyFailCampaignEnv acmeBrief).result.content
        = none ∧
      (create_complete_campaign strategyFailCampaignEnv
          acmeBrief).result.visual_concepts = none ∧
      (create_complete_campaign strategyFailCampaignEnv
          acmeBrief).result.generated_visuals = []) :=
  ⟨rfl, (claim_C1_amended strategyFailCampaignEnv acmeBrief).2.2 rfl⟩

/-- **C2, counterexample.** When the strategy stage fails, the early
return of `create_complete_campaign` skips the history append: the
call appends nothing to the campaign history, not exactly one entry. -/
theorem claim_C2_counterexample :
    (create_complete_campaign strategyFailCampaignEnv
        acmeBrief).historyAppends = [] ∧
    (create_complete_campaign strategyFailCampaignEnv
        acmeBrief).historyAppends.length ≠ 1 := by
  exact ⟨rfl, by decide⟩

/-- **C2, amended.** `create_complete_campaign` appends the assembled
result to the campaign history exactly once when the strategy stage
succeeded, and appends nothing when it failed. -/
theorem claim_C2_amended (env : CampaignEnv) (brief : CampaignBrief) :
    (create_complete_campaign env brief).historyAppends =
      (if (generate_marketing_strategy env.strategyEnv brief).success then
        [(create_complete_campaign env brief).result]
      else []) := by
  cases h : (generate_marketing_strategy env.strategyEnv brief).success with
  | false => simp [create_complete_campaign, h]
  | true =>
    simp only [create_complete_campaign, h, Bool.not_true,
      Bool.false_eq_true, if_false, if_true]
    split <;> rfl

/-- The per-iteration `generate_marketing_image` results of the
`generate_campaign_visuals` loop (each call depends only on its prompt
and its own environment). -/
def campaignVisualCallResults (envs : Nat → ImageGenEnv)
    (visual_prompts : List String) : List ImageGenResult :=
  match visual_prompts with
  | [] => []
  | prompt :: rest =>
    (generate_marketing_image appNovaGenerator (envs 0) prompt
        1024 1024 "standard" false true).1 ::
      campaignVisualCallResults (fun i => envs (i + 1)) rest

/-- The visual stage keeps exactly the successful calls: the returned
list has one entry per successful individual image generation. -/
theorem generate_campaign_visuals_length (envs : Nat → ImageGenEnv)
    (visual_prompts : List String) :
    (generate_campaign_visuals envs visual_prompts).results.length =
      (campaignVisualCallResults envs visual_prompts).countP
        (fun r => r.success) := by
  induction visual_prompts generalizing envs with
  | nil => rfl
  | cons p rest ih =>
    simp only [generate_campaign_visuals, campaignVisualCallResults,
      List.countP_cons]
    split <;> rename_i h <;> simp [h, ih]

/-- The visual stage never returns more entries than prompts. -/
theorem generate_campaign_visuals_length_le (envs : Nat → ImageGenEnv)
    (visual_prompts : List String) :
    (generate_campaign_visuals envs visual_prompts).results.length ≤
      visual_prompts.length := by
  induction visual_prompts generalizing envs with
  | nil => simp [generate_campaign_visuals]
  | cons p rest ih =>
    simp only [generate_campaign_visuals, List.length_cons]
    split
    · simpa using Nat.succ_le_succ (ih _)
    · exact Nat.le_succ_of_le (ih _)

/-- **C3.** For every brief and environment, `generated_visuals` has
length at most 3; it is empty whenever the visual-concepts stage
failed; and when the visual-concepts stage succeeded its length equals
the number of successful individual image generations (only successes
are appended). -/
theorem claim_C3_generated_visuals (env : CampaignEnv)
    (brief : CampaignBrief) :
    ((create_complete_campaign env brief).result.generated_visuals.length ≤ 3) ∧
    (∀ r, (create_complete_campaign env brief).result.visual_concepts = some r →
      r.success = false →
      (create_complete_campaign env brief).result.generated_visuals = []) ∧
    (∀ r, (create_complete_campaign env brief).result.visual_concepts = some r →
      r.success = true →
      (create_complete_campaign env brief).result.generated_visuals.length =
        (campaignVisualCallResults env.imageEnv (samplePrompts brief)).countP
          (fun r2 => r2.success)) := by
  cases hs : (generate_marketing_strategy env.strategyEnv brief).success with
  | false =>
    refine ⟨?_, ?_, ?_⟩ <;> simp [create_complete_campaign, hs]
  | true =>
    simp only [create_complete_campaign, hs, Bool.not_true,
      Bool.false_eq_true, if_false]
    cases hv : (generate_visual_concepts env.visualEnv
        (visualBriefText brief)).success with
    | false =>
      refine ⟨by simp [hv], fun r hr => ?_, fun r hr hrs => ?_⟩
      · simp [hv]
      · simp [hv] at hr
        subst hr
        simp [hv] at hrs
    | true =>
      refine ⟨?_, fun r hr hrs => ?_, fun r hr hrs => ?_⟩
      · have h := generate_campaign_visuals_length_le env.imageEnv
          (samplePrompts brief)
        simp only [samplePrompts, List.length_cons, List.length_nil] at h
        simpa [hv] using h
      · simp [hv] at hr
        subst hr
        simp [hv] at hrs
      · simp [hv]
        exact generate_campaign_visuals_length env.imageEnv (samplePrompts brief)

/-- A campaign environment in which strategy and content succeed but
the visual agent raises. -/
def visualFailCampaignEnv : CampaignEnv :=
  { strategyEnv := okAgentEnv "aaaa0000" "STRATEGY",
    contentEnv := okAgentEnv "bbbb1111" "CONTENT",
    visualEnv := { uuidHex8 := "cccc2222",
                   transport := fun _ _ _ => .error "VisualDown" },
    timestamp := "2026-10-12T00:00:00",
    imageEnv := fun _ => okImageEnv }

/-- Witness for C3 at a concrete environment whose visual-concepts
stage fails: the visuals list is empty. -/
theorem claim_C3_witness :
    ((create_complete_campaign visualFailCampaignEnv
        acmeBrief).result.visual_concepts =
      some { success := false, response := none, error := some "VisualDown",
             session_id := "session_cccc2222" }) ∧
    ({ success := false, response := none, error := some "VisualDown",
       session_id := "session_cccc2222" : AgentResult }.success = false) ∧
    ((create_complete_campaign visualFailCampaignEnv
        acmeBrief).result.generated_visuals = []) :=
  ⟨rfl, rfl,
    (claim_C3_generated_visuals visualFailCampaignEnv acmeBrief).2.1
      { success := false, response := none, error := some "VisualDown",
        session_id := "session_cccc2222" } rfl rfl⟩

/-- Characterization of `generate_marketing_campaign_visuals`: the
overall success flag is the conjunction of the three per-format
successes, the `visuals` mapping holds exactly the successful formats
in order, and `errors` holds one `"<format>: <error>"` entry per
failed format in order. -/
theorem gmcv_char (g : NovaCanvasGenerator) (info : CampaignInfo)
    (e1 e2 e3 : ImageGenEnv) :
    ((generate_marketing_campaign_visuals g info e1 e2 e3).1.success =
      ((generate_social_media_post g e1
          (campaignBasePrompt info ++ ", social media post format") "square").1.success &&
        (generate_social_media_post g e2
          (campaignBasePrompt info ++ ", Instagram story format") "square").1.success &&
        (generate_social_media_post g e3
          (campaignBasePrompt info ++ ", marketing banner format") "square").1.success)) ∧
    ((generate_marketing_campaign_visuals g info e1 e2 e3).1.visuals =
      ([("social_post", (generate_social_media_post g e1
          (campaignBasePrompt info ++ ", social media post format") "square").1),
        ("story", (generate_social_media_post g e2
          (campaignBasePrompt info ++ ", Instagram story format") "square").1),
        ("banner", (generate_social_media_post g e3
          (campaignBasePrompt info ++ ", marketing banner format") "square").1)]).filter
        (fun pr => pr.2.success)) ∧
    ((generate_marketing_campaign_visuals g info e1 e2 e3).1.errors =
      (([("social_post", (generate_social_media_post g e1
          (campaignBasePrompt info ++ ", social media post format") "square").1),
        ("story", (generate_social_media_post g e2
          (campaignBasePrompt info ++ ", Instagram story format") "square").1),
        ("banner", (generate_social_media_post g e3
          (campaignBasePrompt info ++ ", marketing banner format") "square").1)]).filter
        (fun pr => !pr.2.success)).map
        (fun pr => pr.1 ++ ": " ++ pr.2.error.getD "")) ∧
    ((generate_marketing_campaign_visuals g info e1 e2 e3).1.campaign = info) := by
  cases h1 : (generate_social_media_post g e1
      (campaignBasePrompt info ++ ", social media post format") "square").1.success <;>
  cases h2 : (generate_social_media_post g e2
      (campaignBasePrompt info ++ ", Instagram story format") "square").1.success <;>
  cases h3 : (generate_social_media_post g e3
      (campaignBasePrompt info ++ ", marketing banner format") "square").1.success <;>
  simp [generate_marketing_campaign_visuals, campaignVisualsLoop,
    campaignFormats, List.zip, h1, h2, h3]

theorem gmiS3Step_success_dims (g : NovaCanvasGenerator) (env : ImageGenEnv)
    (image_bytes : List Nat) (filename : String) (results : ImageGenResult)
    (fsDelta : List (String × List Nat)) (save_to_s3 : Bool)
    (h : (gmiS3Step g env image_bytes filename results fsDelta
        save_to_s3).1.success = true) :
    (gmiS3Step g env image_bytes filename results fsDelta
        save_to_s3).1.dimensions = results.dimensions := by
  unfold gmiS3Step at h ⊢
  split at h <;> rename_i hb
  · rfl
  · simp only [hb]
    split at h <;> rename_i hc
    · split at h <;> rename_i hp
      · simp [failResult] at h
      · simp [hc, hp]
    · simp [hc]

theorem gmi_success_dims (g : NovaCanvasGenerator) (env : ImageGenEnv)
    (prompt : String) (width height : Nat) (quality : String)
    (save_to_s3 save_locally : Bool)
    (h : (generate_marketing_image g env prompt width height quality
        save_to_s3 save_locally).1.success = true) :
    (generate_marketing_image g env prompt width height quality
        save_to_s3 save_locally).1.dimensions =
      some (toString width ++ "x" ++ toString height) := by
  unfold generate_marketing_image at h ⊢
  generalize env.invokeModel
      { taskType := "TEXT_IMAGE", text := prompt, numberOfImages := 1,
        quality := quality, width := width, height := height } = x at h ⊢
  cases x with
  | error e => simp [failResult] at h
  | ok resp =>
    obtain ⟨imgs⟩ := resp
    cases imgs with
    | none => simp [failResult] at h
    | some l =>
      cases l with
      | nil => simp [failResult] at h
      | cons img rest =>
        cases save_locally with
        | false => exact gmiS3Step_success_dims _ _ _ _ _ _ _ h
        | true =>
          generalize env.writeOutcome = w at h ⊢
          cases w with
          | error e => simp [failResult] at h
          | ok u => exact gmiS3Step_success_dims _ _ _ _ _ _ _ h

/-- **C5.** The aggregate returned by
`generate_marketing_campaign_visuals` has `success = false` iff at
least one of its three format-specific calls failed; its `errors` list
has exactly one `"<format>: <error>"` entry per failed format; and its
`visuals` mapping contains exactly the successful formats. -/
theorem claim_C5_aggregate (g : NovaCanvasGenerator) (info : CampaignInfo)
    (e1 e2 e3 : ImageGenEnv) :
    (((generate_marketing_campaign_visuals g info e1 e2 e3).1.success = false) ↔
      ((generate_social_media_post g e1
          (campaignBasePrompt info ++ ", social media post format")
          "square").1.success = false ∨
        (generate_social_media_post g e2
          (campaignBasePrompt info ++ ", Instagram story format")
          "square").1.success = false ∨
        (generate_social_media_post g e3
          (campaignBasePrompt info ++ ", marketing banner format")
          "square").1.success = false)) ∧
    ((generate_marketing_campaign_visuals g info e1 e2 e3).1.errors.length =
      ([("social_post", (generate_social_media_post g e1
          (campaignBasePrompt info ++ ", social media post format") "square").1),
        ("story", (generate_social_media_post g e2
          (campaignBasePrompt info ++ ", Instagram story format") "square").1),
        ("banner", (generate_social_media_post g e3
          (campaignBasePrompt info ++ ", marketing banner format")
          "square").1)]).countP (fun pr => !pr.2.success)) ∧
    ((generate_marketing_campaign_visuals g info e1 e2 e3).1.visuals =
      ([("social_post", (generate_social_media_post g e1
          (campaignBasePrompt info ++ ", social media post format") "square").1),
        ("story", (generate_social_media_post g e2
          (campaignBasePrompt info ++ ", Instagram story format") "square").1),
        ("banner", (generate_social_media_post g e3
          (campaignBasePrompt info ++ ", marketing banner format")
          "square").1)]).filter (fun pr => pr.2.success)) ∧
    ((generate_marketing_campaign_visuals g info e1 e2 e3).1.errors =
      (([("social_post", (generate_social_media_post g e1
          (campaignBasePrompt info ++ ", social media post format") "square").1),
        ("story", (generate_social_media_post g e2
          (campaignBasePrompt info ++ ", Instagram story format") "square").1),
        ("banner", (generate_social_media_post g e3
          (campaignBasePrompt info ++ ", marketing banner format")
          "square").1)]).filter (fun pr => !pr.2.success)).map
        (fun pr => pr.1 ++ ": " ++ pr.2.error.getD "")) := by
  obtain ⟨hs, hv, he, -⟩ := gmcv_char g info e1 e2 e3
  refine ⟨?_, ?_, hv, he⟩
  · rw [hs]
    cases h1 : (generate_social_media_post g e1
        (campaignBasePrompt info ++ ", social media post format")
        "square").1.success <;>
    cases h2 : (generate_social_media_post g e2
        (campaignBasePrompt info ++ ", Instagram story format")
        "square").1.success <;>
    cases h3 : (generate_social_media_post g e3
        (campaignBasePrompt info ++ ", marketing banner format")
        "square").1.success <;> simp
  · rw [he, List.length_map, ← List.countP_eq_length_filter]

/-- **C10.** Every image in the campaign batch is requested at
1024x1024: each of the three format calls of
`generate_marketing_campaign_visuals` invokes
`generate_social_media_post` with the format name `square`, which is
exactly `generate_marketing_image` at 1024x1024 on the respective
prompt, so the three entries differ only in prompt text; every
successful entry of the batch records dimensions `1024x1024`. -/
theorem claim_C10_square_dimensions (g : NovaCanvasGenerator)
    (info : CampaignInfo) (e1 e2 e3 : ImageGenEnv) :
    (generate_social_media_post g e1
        (campaignBasePrompt info ++ ", social media post format") "square" =
      generate_marketing_image g e1
        ("Social media square format: " ++
          (campaignBasePrompt info ++ ", social media post format"))
        1024 1024 "standard" true true) ∧
    (generate_social_media_post g e2
        (campaignBasePrompt info ++ ", Instagram story format") "square" =
      generate_marketing_image g e2
        ("Social media square format: " ++
          (campaignBasePrompt info ++ ", Instagram story format"))
        1024 1024 "standard" true true) ∧
    (generate_social_media_post g e3
        (campaignBasePrompt info ++ ", marketing banner format") "square" =
      generate_marketing_image g e3
        ("Social media square format: " ++
          (campaignBasePrompt info ++ ", marketing banner format"))
        1024 1024 "standard" true true) ∧
    (∀ pr, pr ∈ (generate_marketing_campaign_visuals g info e1 e2 e3).1.visuals →
      pr.2.dimensions = some "1024x1024") := by
  refine ⟨rfl, rfl, rfl, ?_⟩
  intro pr hpr
  have hv := (gmcv_char g info e1 e2 e3).2.1
  rw [hv, List.mem_filter] at hpr
  obtain ⟨hmem, hsucc⟩ := hpr
  have key : ∀ (e : ImageGenEnv) (p : String),
      (generate_social_media_post g e p "square").1.success = true →
      (generate_social_media_post g e p "square").1.dimensions =
        some "1024x1024" := by
    intro e p hsuc
    exact gmi_success_dims g e ("Social media " ++ "square" ++ " format: " ++ p)
      1024 1024 "standard" true true hsuc
  simp only [List.mem_cons, List.not_mem_nil, or_false] at hmem
  rcases hmem with h | h | h <;> subst h <;> exact key _ _ hsucc

/-- A campaign info dict with every key absent (all defaults used). -/
def infoNone : CampaignInfo :=
  { brand := none, product := none, style := none, colors := none }

/-- The concrete `social_post` entry of the batch at `okImageEnv`. -/
def c10Pair : String × ImageGenResult :=
  ("social_post",
    { success := true,
      filename := some "marketing_visual_20260101_000000_abcd1234.png",
      size_bytes := some 3,
      dimensions := some "1024x1024",
      prompt := some "Social media square format: Marketing visual for Brand Product, modern and professional style, blue and white color scheme, social media post format",
      local_path := some "/app/marketing_visual_20260101_000000_abcd1234.png",
      s3_url := none, error := none })

/-- Witness for C10: a concrete batch entry is in the `visuals`
mapping and records dimensions 1024x1024. -/
theorem claim_C10_witness :
    (c10Pair ∈ (generate_marketing_campaign_visuals appNovaGenerator infoNone
        okImageEnv okImageEnv okImageEnv).1.visuals) ∧
    c10Pair.2.dimensions = some "1024x1024" :=
  ⟨by decide,
    (claim_C10_square_dimensions appNovaGenerator infoNone okImageEnv
        okImageEnv okImageEnv).2.2.2 c10Pair (by decide)⟩
